import Mathlib

/-!
Verification of the display rendering and screen-transition engine of the
plex-radio-client repository, a shallow embedding of `src/display_manager.py`.

Modelling conventions:
* Python strings are Lean `String`s; the Python slicing/padding primitives
  (`s[:n]`, `s[a:b]`, `s.ljust(w)`, `s.center(w)`, `s.strip()`) are defined
  below on the character list `s.data`, following CPython semantics
  (`center` uses CPython's `marg / 2 + (marg & width & 1)` left split).
* Wall-clock instants (`time.time()` floats) are modelled as rationals `ℚ`;
  the wall-clock string produced by `datetime.now().strftime('%H:%M:%S')` is
  a separate input (`TimeEnv.wallClock`), since the code uses two clocks.
* The shared render context `self.context` is a flat string-keyed dictionary
  holding Python values (`PyVal`); it stores both application data and the
  manager's own bookkeeping keys `last_line1` / `last_line2` / `force_update`,
  exactly as in the source.
* Hardware effects are reified as a list of `DriverOp` events: `.write t l`
  is one hardware write (`lcd_display_string` for the I2C driver, the
  echo/buffer store for the mock driver) and `.clear` is a clear.
* `time.sleep` calls only delay execution and change no modelled state; they
  are not modelled (time is an input to every operation).
* Exception behaviour of `update_display` is embedded by parametrising the
  post-render step over an `Except` outcome (`updateDisplayOutcome`): the
  `.error` branch is the `except:` handler of the source, and the total Lean
  type of the function is the "returns normally" guarantee.
-/

namespace PlexRadio

/-- Python values stored in the shared render context dictionary. -/
inductive PyVal where
  | str (s : String)
  | bool (b : Bool)
  | int (n : Int)
deriving DecidableEq

/-- Python `str(v)` for the values above. -/
def pyStr : PyVal → String
  | .str s => s
  | .bool b => if b then "True" else "False"
  | .int n => toString n

/-- Python truthiness (`if v:`) for the values above. -/
def pyTruthy : PyVal → Bool
  | .str s => !s.data.isEmpty
  | .bool b => b
  | .int n => n != 0

/-- ASCII whitespace stripped by Python `str.strip()`. -/
def isPyWs (c : Char) : Bool :=
  c = ' ' || c = '\t' || c = '\n' || c = '\r' || c = '\x0b' || c = '\x0c'

/-- Python `s.strip()` (ASCII whitespace; the code never feeds it unicode spaces). -/
def pyStrip (s : String) : String :=
  String.mk (((s.data.dropWhile isPyWs).reverse.dropWhile isPyWs).reverse)

/-- Python `s[:n]`. -/
def pyTake (s : String) (n : Nat) : String := String.mk (s.data.take n)

/-- Python `s[a:b]` for nonnegative bounds `a ≤ b`. -/
def pySlice (s : String) (a b : Nat) : String :=
  String.mk ((s.data.drop a).take (b - a))

/-- Length of a Python string in characters. -/
def pyLen (s : String) : Nat := s.data.length

/-- Python `s.ljust(w)`: pad on the right with spaces to length `w`. -/
def pyLjust (s : String) (w : Nat) : String :=
  String.mk (s.data ++ List.replicate (w - s.data.length) ' ')

/-- Python `s.center(w)`, with CPython's split of the margin. -/
def pyCenter (s : String) (w : Nat) : String :=
  if w ≤ s.data.length then s
  else
    let marg := w - s.data.length
    let left := marg / 2 + (marg &&& w &&& 1)
    String.mk (List.replicate left ' ' ++ s.data ++ List.replicate (marg - left) ' ')

/-- `update_context` value sanitation: string values are stripped. -/
def stripVal : PyVal → PyVal
  | .str s => .str (pyStrip s)
  | v => v

/-- The shared render context: the flat dictionary `self.context`. -/
abbrev Ctx := List (String × PyVal)

/-- Dictionary read, first binding wins (later `ctxSet` bindings are consed on). -/
def ctxGet (c : Ctx) (k : String) : Option PyVal := List.lookup k c

/-- Python `context.get(k, dflt)`. -/
def ctxGetD (c : Ctx) (k : String) (dflt : PyVal) : PyVal := (ctxGet c k).getD dflt

/-- Dictionary write `context[k] = v`. -/
def ctxSet (c : Ctx) (k : String) (v : PyVal) : Ctx := (k, v) :: c

/-- `DisplayManager.update_context`: strip string values, then `dict.update`. -/
def updateContext (c : Ctx) (patch : List (String × PyVal)) : Ctx :=
  patch.foldl (fun acc kv => ctxSet acc kv.1 (stripVal kv.2)) c

/-- Observable hardware operations issued to a display backend. -/
inductive DriverOp where
  | clear
  | write (text : String) (line : Nat)
deriving DecidableEq

/-! ### I2CLCDDriver -/

/-- The I2C driver's mutable state: `self._current_lines` (last text written
per line).  Width 16 and height 2 are fixed in `I2CLCDDriver.__init__`. -/
structure I2CState where
  currentLines : List String
deriving DecidableEq

def i2cWidth : Nat := 16
def i2cHeight : Nat := 2

/-- Driver state right after `__init__` or `clear`. -/
def i2cInit : I2CState := ⟨List.replicate i2cHeight ""⟩

/-- One character of the `replacements` table pass of `_sanitize_text`. -/
def replacedChar (c : Char) : Char :=
  if c = '\x00' || c = '\t' || c = '\n' || c = '\r' ||
     c = '\x0c' || c = '\x0b' || c = '\x08' then ' ' else c

/-- One character of the printable-ASCII pass of `_sanitize_text`. -/
def sanitizeChar (c : Char) : Char :=
  if 32 ≤ c.toNat ∧ c.toNat ≤ 126 then c else ' '

/-- `I2CLCDDriver._sanitize_text` (`none` models Python `None`). -/
def sanitizeText : Option String → String
  | none => ""
  | some t =>
    if t.data.isEmpty then ""
    else String.mk ((t.data.map replacedChar).map sanitizeChar)

/-- The exact string `display_text` sends to the hardware for input `text`:
sanitize, truncate to the width, right-pad to the width. -/
def i2cClean (text : Option String) : String :=
  pyLjust (pyTake (sanitizeText text) i2cWidth) i2cWidth

/-- `I2CLCDDriver.display_text` (with a possibly-`None` text): rejects
out-of-range lines, skips the hardware write when the cached line already
holds the cleaned text, otherwise writes and updates the cache. -/
def i2cDisplayTextO (s : I2CState) (text : Option String) (line : Nat) :
    I2CState × List DriverOp :=
  if ¬(1 ≤ line ∧ line ≤ i2cHeight) then (s, [])
  else
    let clean := i2cClean text
    if line - 1 < s.currentLines.length ∧
       s.currentLines[line - 1]? = some clean then (s, [])
    else
      let s' : I2CState :=
        if line - 1 < s.currentLines.length
        then ⟨s.currentLines.set (line - 1) clean⟩ else s
      (s', [.write clean line])

/-- `I2CLCDDriver.clear`: clear the hardware and reset the per-line cache. -/
def i2cClear (_ : I2CState) : I2CState × List DriverOp :=
  (⟨List.replicate i2cHeight ""⟩, [.clear])

/-! ### MockDisplayDriver -/

/-- `MockDisplayDriver` state: the echo buffer `self.lines`. -/
structure MockState where
  lines : List String
deriving DecidableEq

def mockInit (h : Nat) : MockState := ⟨List.replicate h ""⟩

/-- `MockDisplayDriver.display_text`: stores and echoes the raw text on every
call (no sanitation, no change suppression). -/
def mockDisplayText (h : Nat) (s : MockState) (text : String) (line : Nat) :
    MockState × List DriverOp :=
  if 1 ≤ line ∧ line ≤ h then (⟨s.lines.set (line - 1) text⟩, [.write text line])
  else (s, [])

/-- `MockDisplayDriver.clear`. -/
def mockClear (h : Nat) (_ : MockState) : MockState × List DriverOp :=
  (⟨List.replicate h ""⟩, [.clear])

/-- A display backend as seen by screens and the manager: dimensions plus the
two effectful entry points, each returning the new driver state and the
hardware operations it issued. -/
structure DriverModel (δ : Type) where
  width : Nat
  height : Nat
  clear : δ → δ × List DriverOp
  displayText : δ → String → Nat → δ × List DriverOp

/-- The physical I2C backend (16×2). -/
def i2cDM : DriverModel I2CState :=
  ⟨i2cWidth, i2cHeight, i2cClear, fun s t l => i2cDisplayTextO s (some t) l⟩

/-- The mock backend with configurable dimensions. -/
def mockDM (w h : Nat) : DriverModel MockState :=
  ⟨w, h, mockClear h, mockDisplayText h⟩

/-! ### Marquee engine (RadioDefaultScreen._handle_marquee_text) -/

inductive Phase where
  | initialDelay
  | scrolling
  | finalDelay
deriving DecidableEq

/-- The per-marquee mutable state of `RadioDefaultScreen`. -/
structure MarqueeState where
  scrollOffset : Nat
  lastDisplayed : String
  stateTimer : ℚ
  phase : Phase
deriving DecidableEq

/-- `self.scroll_speed = 0.4` -/
def scrollSpeed : ℚ := 2/5
/-- `self.pre_scroll_delay = 2` -/
def preScrollDelay : ℚ := 2
/-- `self.post_scroll_delay = 2` -/
def postScrollDelay : ℚ := 2

/-- Marquee state as initialised in `RadioDefaultScreen.__init__` at time `t`. -/
def mkMarquee (t : ℚ) : MarqueeState := ⟨0, "", t, .initialDelay⟩

/-- The marquee state right after the text-changed reset inside
`_handle_marquee_text`. -/
def marqueeResetAt (text : String) (now : ℚ) : MarqueeState :=
  ⟨0, text, now, .initialDelay⟩

/-- `RadioDefaultScreen._handle_marquee_text` (also the body of the
structurally identical `_handle_marquee_off_text`): returns the updated
marquee state and the visible window. -/
def handleMarquee (st0 : MarqueeState) (text : String) (width : Nat) (now : ℚ) :
    MarqueeState × String :=
  let st := if text ≠ st0.lastDisplayed then marqueeResetAt text now else st0
  if pyLen text ≤ width then (st, pyCenter text width)
  else
    let maxScroll := pyLen text - width
    match st.phase with
    | .initialDelay =>
      let content := pyTake text width
      let st2 := if preScrollDelay ≤ now - st.stateTimer then
          { st with phase := .scrolling, stateTimer := now, scrollOffset := 0 }
        else st
      (st2, content)
    | .scrolling =>
      let stA := if scrollSpeed ≤ now - st.stateTimer then
          { st with scrollOffset := st.scrollOffset + 1, stateTimer := now }
        else st
      let stB := if maxScroll ≤ stA.scrollOffset then
          { stA with phase := .finalDelay, stateTimer := now, scrollOffset := maxScroll }
        else stA
      (stB, pySlice text stB.scrollOffset (stB.scrollOffset + width))
    | .finalDelay =>
      let content := pySlice text (pyLen text - width) (pyLen text)
      let st2 := if postScrollDelay ≤ now - st.stateTimer then
          { st with phase := .initialDelay, stateTimer := now, scrollOffset := 0 }
        else st
      (st2, content)

/-- Iterate `handleMarquee` over a list of call instants, collecting the
visible windows in order. -/
def marqueeRun (st : MarqueeState) (text : String) (width : Nat) :
    List ℚ → MarqueeState × List String
  | [] => (st, [])
  | t :: ts =>
    let r := handleMarquee st text width t
    let rest := marqueeRun r.1 text width ts
    (rest.1, r.2 :: rest.2)

/-! ### Screens -/

/-- The two time sources of a render call: `time.time()` as a rational and the
formatted wall clock used by the off-state line 1. -/
structure TimeEnv where
  now : ℚ
  wallClock : String

/-- The `"Radio Off"` banner built in `RadioDefaultScreen.render`. -/
def offMessage : String := "Radio Off  -  Radio Off  -  Radio Off  -  "

/-- The screen variants of the source, each carrying its private mutable
state (`start_time` for the timed screens, the two marquee states for the
default screen). -/
inductive Screen where
  | volume (duration : ℚ) (startTime : Option ℚ)
  | channel (duration : ℚ) (startTime : Option ℚ)
  | error (message : String) (duration : ℚ) (persistent : Bool) (startTime : Option ℚ)
  | goodbye (duration : ℚ) (startTime : Option ℚ)
  | radioDefault (song : MarqueeState) (off : MarqueeState)
deriving DecidableEq

/-- Result of one `render(driver, context)` call: the mutated screen, driver
state and context, the continue/expire flag, and the hardware ops issued. -/
structure RenderResult (δ : Type) where
  screen : Screen
  driver : δ
  ctx : Ctx
  cont : Bool
  ops : List DriverOp

/-- The two line contents computed by `RadioDefaultScreen.render` (after its
final `ljust(width)[:width]` normalisation), plus the updated marquee states. -/
structure RadioOut where
  line1 : String
  line2 : String
  song : MarqueeState
  off : MarqueeState

def radioLineContents (w : Nat) (song off : MarqueeState) (ctx : Ctx)
    (env : TimeEnv) : RadioOut :=
  if pyTruthy (ctxGetD ctx "is_playing" (.bool false)) then
    let channelName := pyTake (pyStrip (pyStr (ctxGetD ctx "channel_name" (.str "Radio")))) w
    let line1 := pyCenter channelName w
    let csVal := ctxGetD ctx "current_song" (.str "Loading...")
    let songText := if pyTruthy csVal then pyStrip (pyStr csVal) else "Loading..."
    let ms := handleMarquee song songText w env.now
    ⟨pyTake (pyLjust line1 w) w, pyTake (pyLjust ms.2 w) w, ms.1, off⟩
  else
    let line1 := pyCenter env.wallClock w
    let ms := handleMarquee off offMessage w env.now
    ⟨pyTake (pyLjust line1 w) w, pyTake (pyLjust ms.2 w) w, song, ms.1⟩

/-- The two unconditional `display_text` calls shared by the timed screens. -/
def renderTimedLines (dm : DriverModel δ) (d : δ) (line1 line2 : String) :
    δ × List DriverOp :=
  let r1 := dm.displayText d line1 1
  let r2 := dm.displayText r1.1 line2 2
  (r2.1, r1.2 ++ r2.2)

/-- `render(driver, context)` for each screen variant, faithful to the source:
timed screens lazily set `start_time` on their first call and report expiry
through the returned flag; the default screen writes only changed lines and
updates the bookkeeping keys in the context. -/
def renderScreen (dm : DriverModel δ) (s : Screen) (d : δ) (ctx : Ctx)
    (env : TimeEnv) : RenderResult δ :=
  match s with
  | .volume dur st =>
    let T := st.getD env.now
    let w := dm.width
    let line1 := pyTake (pyLjust (pyCenter "Volume" w) w) w
    let vt := pyStrip (pyStr (ctxGetD ctx "volume_text" (.str "N/A")))
    let line2 := pyTake (pyLjust (pyCenter vt w) w) w
    let dr := renderTimedLines dm d line1 line2
    ⟨.volume dur (some T), dr.1, ctx, decide (env.now - T < dur), dr.2⟩
  | .channel dur st =>
    let T := st.getD env.now
    let w := dm.width
    let line1 := pyTake (pyLjust (pyCenter "Channel" w) w) w
    let ct := pyStrip (pyStr (ctxGetD ctx "channel_text" (.str "Unknown")))
    let line2 := pyTake (pyLjust (pyCenter (pyTake ct w) w) w) w
    let dr := renderTimedLines dm d line1 line2
    ⟨.channel dur (some T), dr.1, ctx, decide (env.now - T < dur), dr.2⟩
  | .error msg dur pers st =>
    let T := st.getD env.now
    let w := dm.width
    let line1 := pyLjust (pyCenter "Error:" w) w
    let line2 := pyLjust (pyCenter (pyTake msg w) w) w
    let dr := renderTimedLines dm d line1 line2
    ⟨.error msg dur pers (some T), dr.1, ctx, pers || decide (env.now - T < dur), dr.2⟩
  | .goodbye dur st =>
    let T := st.getD env.now
    let w := dm.width
    let line1 := pyLjust (pyCenter "Goodbye!" w) w
    let line2 := pyLjust (pyCenter "" w) w
    let dr := renderTimedLines dm d line1 line2
    ⟨.goodbye dur (some T), dr.1, ctx, decide (env.now - T < dur), dr.2⟩
  | .radioDefault song off =>
    let w := dm.width
    let out := radioLineContents w song off ctx env
    let s1 : δ × List DriverOp × Ctx :=
      if pyTruthy (ctxGetD ctx "force_update" (.bool false)) ||
         ctxGetD ctx "last_line1" (.str "") ≠ PyVal.str out.line1 then
        let r := dm.displayText d out.line1 1
        (r.1, r.2, ctxSet ctx "last_line1" (.str out.line1))
      else (d, [], ctx)
    let s2 : δ × List DriverOp × Ctx :=
      if pyTruthy (ctxGetD s1.2.2 "force_update" (.bool false)) ||
         ctxGetD s1.2.2 "last_line2" (.str "") ≠ PyVal.str out.line2 then
        let r := dm.displayText s1.1 out.line2 2
        (r.1, r.2, ctxSet s1.2.2 "last_line2" (.str out.line2))
      else (s1.1, [], s1.2.2)
    ⟨.radioDefault out.song out.off, s2.1, s2.2.2, true, s1.2.1 ++ s2.2.1⟩

/-! ### DisplayManager -/

structure ManagerState (δ : Type) where
  driver : δ
  currentScreen : Option Screen
  defaultScreen : Screen
  ctx : Ctx
  transitionInProgress : Bool
  lastScreenChangeTime : ℚ

/-- `DisplayManager.__init__` with the default screen constructed at time `t`. -/
def mkManager (d : δ) (t : ℚ) : ManagerState δ :=
  ⟨d, none, .radioDefault (mkMarquee t) (mkMarquee t),
   ctxSet (ctxSet [] "last_line1" (.str "")) "last_line2" (.str ""),
   false, 0⟩

/-- `show_screen` resets the installed screen's `start_time` (the
`hasattr(screen, 'start_time')` check: every variant but the default screen
has one). -/
def resetStartTime : Screen → Screen
  | .volume d _ => .volume d none
  | .channel d _ => .channel d none
  | .error m d p _ => .error m d p none
  | .goodbye d _ => .goodbye d none
  | .radioDefault a b => .radioDefault a b

/-- `DisplayManager.show_screen` (the anti-thrash `time.sleep` only delays and
is not modelled). -/
def showScreen (dm : DriverModel δ) (m : ManagerState δ) (s : Screen)
    (clearFirst : Bool) (now : ℚ) : ManagerState δ × List DriverOp :=
  let step : δ × List DriverOp × Ctx :=
    if clearFirst then
      let r := dm.clear m.driver
      (r.1, r.2, ctxSet m.ctx "force_update" (.bool true))
    else (m.driver, [], m.ctx)
  let ctx := ctxSet (ctxSet step.2.2 "last_line1" (.str "")) "last_line2" (.str "")
  ({ m with
      driver := step.1
      ctx := ctx
      currentScreen := some (resetStartTime s)
      lastScreenChangeTime := now
      transitionInProgress := false }, step.2.1)

/-- `DisplayManager.update_context` on the manager state. -/
def managerUpdateContext (m : ManagerState δ) (patch : List (String × PyVal)) :
    ManagerState δ :=
  { m with ctx := updateContext m.ctx patch }

/-- The screen `update_display` picks for this frame. -/
def screenToRender (m : ManagerState δ) : Screen :=
  m.currentScreen.getD m.defaultScreen

/-- The context as it stands when `update_display` invokes `render`: the
`force_update` flag has been consumed (reset to `False`) when it was truthy. -/
def updateDisplayCtxAtRender (m : ManagerState δ) : Ctx :=
  if pyTruthy (ctxGetD m.ctx "force_update" (.bool false)) then
    ctxSet m.ctx "force_update" (.bool false)
  else m.ctx

/-- The tail of `update_display` after the `render` call, parametrised over
the render outcome.  `.ok` is the normal path (revert to the default screen
when an active temporary screen reports expiry); `.error` is the `except:`
handler (best-effort clear, reset bookkeeping, set `force_update`, return
normally). -/
def updateDisplayOutcome (dm : DriverModel δ) (m : ManagerState δ)
    (res : Except String (RenderResult δ)) : ManagerState δ × List DriverOp :=
  match res with
  | .error _ =>
    let r := dm.clear m.driver
    ({ m with
        driver := r.1
        ctx := ctxSet (ctxSet (ctxSet m.ctx "last_line1" (.str ""))
                "last_line2" (.str "")) "force_update" (.bool true) }, r.2)
  | .ok r =>
    if m.currentScreen.isSome ∧ r.cont = false then
      let c := dm.clear r.driver
      ({ m with
          driver := c.1
          currentScreen := none
          ctx := ctxSet (ctxSet (ctxSet r.ctx "force_update" (.bool true))
                  "last_line1" (.str "")) "last_line2" (.str "") },
       r.ops ++ c.2)
    else
      ({ m with
          driver := r.driver
          ctx := r.ctx
          currentScreen := if m.currentScreen.isSome then some r.screen else none
          defaultScreen := if m.currentScreen.isSome then m.defaultScreen else r.screen },
       r.ops)

/-- `DisplayManager.update_display`: skip during transitions, pick the screen,
consume `force_update`, render, then react to expiry (the render itself never
raises in the model; the handler branch of `updateDisplayOutcome` embeds the
`except:` path). -/
def updateDisplay (dm : DriverModel δ) (m : ManagerState δ) (env : TimeEnv) :
    ManagerState δ × List DriverOp :=
  if m.transitionInProgress then (m, [])
  else updateDisplayOutcome dm m
    (.ok (renderScreen dm (screenToRender m) m.driver (updateDisplayCtxAtRender m) env))

/-- `DisplayManager.clear_display`. -/
def clearDisplay (dm : DriverModel δ) (m : ManagerState δ) :
    ManagerState δ × List DriverOp :=
  let r := dm.clear m.driver
  ({ m with
      driver := r.1
      currentScreen := none
      ctx := ctxSet (ctxSet (ctxSet m.ctx "last_line1" (.str ""))
              "last_line2" (.str "")) "force_update" (.bool true)
      transitionInProgress := false }, r.2)

/-! ### Helper lemmas -/

theorem data_mk (l : List Char) : (String.mk l).data = l := rfl

theorem data_empty : ("" : String).data = [] := rfl

theorem pyLen_pyTake_pyLjust (s : String) (w : Nat) :
    pyLen (pyTake (pyLjust s w) w) = w := by
  simp only [pyLen, pyTake, pyLjust, data_mk, List.length_take,
    List.length_append, List.length_replicate]
  omega

theorem pyLen_i2cClean (t : Option String) : pyLen (i2cClean t) = 16 := by
  simp only [i2cClean, i2cWidth, pyLen, pyLjust, pyTake, data_mk,
    List.length_take, List.length_append, List.length_replicate]
  omega

theorem pyLen_pyCenter (s : String) (w : Nat) (h : pyLen s ≤ w) :
    pyLen (pyCenter s w) = w := by
  unfold pyLen at h ⊢
  unfold pyCenter
  by_cases hw : w ≤ s.data.length
  · rw [if_pos hw]; omega
  · rw [if_neg hw]
    have hb : (w - s.data.length) &&& w &&& 1 ≤ 1 := by
      rw [Nat.and_one_is_mod]; omega
    simp only [data_mk, List.length_append, List.length_replicate]
    omega

theorem ne_empty_of_pyLen_pos (s : String) (h : 0 < pyLen s) : s ≠ "" := by
  intro he
  rw [he] at h
  rw [pyLen, data_empty] at h
  exact absurd h (by decide)

theorem sanitizeChar_range (c : Char) :
    32 ≤ (sanitizeChar c).toNat ∧ (sanitizeChar c).toNat ≤ 126 := by
  unfold sanitizeChar
  by_cases h : 32 ≤ c.toNat ∧ c.toNat ≤ 126
  · rw [if_pos h]; exact h
  · rw [if_neg h]; exact ⟨by decide, by decide⟩

theorem mem_sanitizeText_range (t : Option String) (c : Char)
    (h : c ∈ (sanitizeText t).data) : 32 ≤ c.toNat ∧ c.toNat ≤ 126 := by
  cases t with
  | none =>
    rw [show (sanitizeText none).data = [] from rfl] at h
    exact absurd h (List.not_mem_nil c)
  | some s =>
    by_cases he : s.data.isEmpty
    · have h0 : (sanitizeText (some s)).data = [] := by
        simp only [sanitizeText, if_pos he, data_empty]
      rw [h0] at h
      exact absurd h (List.not_mem_nil c)
    · have h0 : (sanitizeText (some s)).data =
          (s.data.map replacedChar).map sanitizeChar := by
        simp only [sanitizeText, if_neg he, data_mk]
      rw [h0] at h
      obtain ⟨a, _, rfl⟩ := List.mem_map.1 h
      exact sanitizeChar_range a

theorem i2cClean_mem_range (t : Option String) (c : Char)
    (h : c ∈ (i2cClean t).data) : 32 ≤ c.toNat ∧ c.toNat ≤ 126 := by
  unfold i2cClean pyLjust pyTake at h
  rcases List.mem_append.1 h with h1 | h2
  · exact mem_sanitizeText_range t c (List.mem_of_mem_take h1)
  · rw [List.eq_of_mem_replicate h2]
    exact ⟨by decide, by decide⟩

theorem ctxGet_ctxSet_self (c : Ctx) (k : String) (v : PyVal) :
    ctxGet (ctxSet c k v) k = some v := by
  simp [ctxGet, ctxSet, List.lookup]

theorem ctxGet_ctxSet_ne (c : Ctx) (k k2 : String) (v : PyVal) (h : k2 ≠ k) :
    ctxGet (ctxSet c k v) k2 = ctxGet c k2 := by
  have hb : (k2 == k) = false := beq_eq_false_iff_ne.mpr h
  simp [ctxGet, ctxSet, List.lookup, hb]

theorem lookup_append (l1 l2 : List (String × PyVal)) (k : String) :
    List.lookup k (l1 ++ l2) = (List.lookup k l1).or (List.lookup k l2) := by
  induction l1 with
  | nil => simp [List.lookup]
  | cons a t ih =>
    by_cases h : k = a.1
    · subst h
      simp [List.lookup]
    · have hb : (k == a.1) = false := beq_eq_false_iff_ne.mpr h
      simp [List.lookup, hb, ih]

theorem ctxGet_updateContext (patch : List (String × PyVal)) (ctx : Ctx)
    (k : String) :
    ctxGet (updateContext ctx patch) k =
      match List.lookup k patch.reverse with
      | some v => some (stripVal v)
      | none => ctxGet ctx k := by
  induction patch generalizing ctx with
  | nil => simp [updateContext, List.lookup]
  | cons p ps ih =>
    have hstep : updateContext ctx (p :: ps) =
        updateContext (ctxSet ctx p.1 (stripVal p.2)) ps := rfl
    rw [hstep, ih, List.reverse_cons, lookup_append]
    cases hps : List.lookup k ps.reverse with
    | some v => simp
    | none =>
      by_cases hk : k = p.1
      · subst hk
        simp [List.lookup, ctxGet_ctxSet_self]
      · have hb : (k == p.1) = false := beq_eq_false_iff_ne.mpr hk
        simp [List.lookup, hb, ctxGet_ctxSet_ne _ _ _ _ hk]

/-! ### Concrete scenario material -/

/-- The 16×2 mock backend the end-to-end scenarios run against. -/
def mockDM16 : DriverModel MockState := mockDM 16 2

/-- Scenario B text (`quick_marquee_test.py` / spec scenario B). -/
def c2text : String := "This Is A Very Long Song Title"

/-- Scenario B call instants: first render at 0, phase change at 2, then one
call every `scroll_speed` = 0.4 s, and one further call inside the final
hold. -/
def c2times : List ℚ :=
  [0, 2] ++ ((List.range 14).map (fun k => 2 + (2/5) * ((k : ℚ) + 1))) ++ [78/10]

/-- Scenario A states: manager over the mock driver, `ChannelScreen(2.0)`
installed at time 0, `channel_text` set to `"Jazz FM"`. -/
def c1m0 : ManagerState MockState := mkManager (mockInit 2) 0

def c1m1 : ManagerState MockState :=
  (showScreen mockDM16 c1m0 (.channel 2 none) true 0).1

def c1m2 : ManagerState MockState :=
  managerUpdateContext c1m1 [("channel_text", .str "Jazz FM")]

def c1env (t : ℚ) : TimeEnv := ⟨t, "12:00:00"⟩

def c1step1 : ManagerState MockState × List DriverOp :=
  updateDisplay mockDM16 c1m2 (c1env 0)

def c1step2 : ManagerState MockState × List DriverOp :=
  updateDisplay mockDM16 c1step1.1 (c1env (1/2))

def c1step3 : ManagerState MockState × List DriverOp :=
  updateDisplay mockDM16 c1step2.1 (c1env 1)

def c1step4 : ManagerState MockState × List DriverOp :=
  updateDisplay mockDM16 c1step3.1 (c1env (21/10))

def c1step5 : ManagerState MockState × List DriverOp :=
  updateDisplay mockDM16 c1step4.1 (c1env (26/10))

/-! ### Claim theorems -/

/-- C4: for every string of at most the display width, the marquee returns the
text centered to exactly `width` characters, and a call whose text is already
the tracked text leaves the whole marquee state (phase, offset, timer)
untouched, so repeated calls with the same short text are pure. -/
theorem marquee_short_text_centered (st : MarqueeState) (text : String)
    (width : Nat) (now : ℚ) (h : pyLen text ≤ width) :
    (handleMarquee st text width now).2 = pyCenter text width ∧
    pyLen (pyCenter text width) = width ∧
    (st.lastDisplayed = text →
      handleMarquee st text width now = (st, pyCenter text width)) := by
  refine ⟨?_, pyLen_pyCenter text width h, ?_⟩
  · unfold handleMarquee
    by_cases hc : text ≠ st.lastDisplayed
    · simp [hc, h]
    · simp [hc, h]
  · intro he
    have hc : ¬(text ≠ st.lastDisplayed) := by
      rw [he]; exact fun hx => hx rfl
    unfold handleMarquee
    simp [hc, h]

theorem marquee_short_text_centered_witness :
    pyLen "Jazz" ≤ 16 ∧
    (handleMarquee (marqueeResetAt "Jazz" 0) "Jazz" 16 5).2 = pyCenter "Jazz" 16 ∧
    pyLen (pyCenter "Jazz" 16) = 16 ∧
    handleMarquee (marqueeResetAt "Jazz" 0) "Jazz" 16 5 =
      (marqueeResetAt "Jazz" 0, pyCenter "Jazz" 16) := by
  have h : pyLen "Jazz" ≤ 16 := by decide
  have hm := marquee_short_text_centered (marqueeResetAt "Jazz" 0) "Jazz" 16 5 h
  exact ⟨h, hm.1, hm.2.1, hm.2.2 rfl⟩

/-- C5: a marquee call whose text differs from the tracked text behaves
exactly like a call from the freshly reset state (phase `initial_delay`,
offset 0, timer = now, tracked text updated), and in particular a new long
text is shown from its first `width` characters with the state left at the
reset values. -/
theorem marquee_text_change_resets (st : MarqueeState) (text : String)
    (width : Nat) (now : ℚ) (h : text ≠ st.lastDisplayed) :
    handleMarquee st text width now =
      handleMarquee (marqueeResetAt text now) text width now ∧
    (width < pyLen text →
      handleMarquee st text width now =
        (marqueeResetAt text now, pyTake text width)) := by
  have hc2 : ¬((text : String) ≠ (marqueeResetAt text now).lastDisplayed) := by
    simp [marqueeResetAt]
  constructor
  · unfold handleMarquee
    simp [h, hc2]
  · intro hw
    have hlen : ¬(pyLen text ≤ width) := Nat.not_le.mpr hw
    have h0 : ¬(preScrollDelay ≤ now - (marqueeResetAt text now).stateTimer) := by
      simp [marqueeResetAt, preScrollDelay]
    unfold handleMarquee
    simp [h, hlen, marqueeResetAt, preScrollDelay] at h0 ⊢

theorem marquee_text_change_resets_witness :
    ("BBBBBBBBBBBBBBBBBBBB" ≠
      (MarqueeState.mk 5 "AAAAAAAAAAAAAAAAAAAA" 3 .scrolling).lastDisplayed) ∧
    16 < pyLen "BBBBBBBBBBBBBBBBBBBB" ∧
    handleMarquee (MarqueeState.mk 5 "AAAAAAAAAAAAAAAAAAAA" 3 .scrolling)
        "BBBBBBBBBBBBBBBBBBBB" 16 10 =
      (marqueeResetAt "BBBBBBBBBBBBBBBBBBBB" 10,
        pyTake "BBBBBBBBBBBBBBBBBBBB" 16) := by
  refine ⟨by decide, by decide, ?_⟩
  exact (marquee_text_change_resets _ _ 16 10 (by decide)).2 (by decide)

/-- C2 counterexample: the scenario text `"This Is A Very Long Song Title"`
has 30 characters (not 31), its first visible window is
`"This Is A Very L"` (not `"This Is A Very T"`), the window held before the
post-scroll delay is the last 16 characters `" Long Song Title"` (not the
15-character `"Long Song Title"`), and the number of scroll steps,
`len(text) - width`, is 14 (not 15). -/
theorem c2_counterexample :
    pyLen c2text ≠ 31 ∧
    (handleMarquee (mkMarquee 0) c2text 16 0).2 ≠ "This Is A Very T" ∧
    pySlice c2text (pyLen c2text - 16) (pyLen c2text) ≠ "Long Song Title" ∧
    pyLen c2text - 16 ≠ 15 := by
  with_unfolding_all decide

/-- C2 amended: the text has 30 characters; the first visible window is
`"This Is A Very L"`; after `pre_scroll_delay` the window advances one
character per `scroll_speed` tick, through windows `text[k+1 : k+17]` for
`k = 0..13`; the final window held before the post-scroll delay is
`" Long Song Title"`, the last 16 characters; and the number of distinct
scroll steps is `30 - 16 = 14`. -/
theorem c2_amended :
    pyLen c2text = 30 ∧
    (handleMarquee (mkMarquee 0) c2text 16 0).2 = "This Is A Very L" ∧
    (marqueeRun (mkMarquee 0) c2text 16 c2times).2 =
      ["This Is A Very L", "This Is A Very L"] ++
        ((List.range 14).map (fun k => pySlice c2text (k + 1) (k + 1 + 16))) ++
        [" Long Song Title"] ∧
    (marqueeRun (mkMarquee 0) c2text 16 c2times).1.phase = .finalDelay ∧
    pySlice c2text 14 30 = " Long Song Title" ∧
    pyLen c2text - 16 = 14 := by
  with_unfolding_all decide

/-- C6 counterexample: the mock driver does not implement change suppression
(its contract differs from the physical driver here): two consecutive
identical `display_text` calls echo twice, not once. -/
theorem c6_counterexample :
    ((mockDisplayText 2 (mockInit 2) "hi" 1).2 ++
      (mockDisplayText 2 (mockDisplayText 2 (mockInit 2) "hi" 1).1 "hi" 1).2).length
      ≠ 1 := by
  decide

/-- C6 amended: for the physical I2C driver, the second of two consecutive
`display_text` calls with the same text and in-range line is always a no-op
(zero hardware writes), so the pair issues at most one write — and exactly one
when the line's cache does not already hold the sanitized/padded text.  The
mock driver echoes on every call instead (see the counterexample). -/
theorem i2c_displayText_idempotent (s : I2CState) (text : String) (line : Nat)
    (h1 : 1 ≤ line) (h2 : line ≤ i2cHeight)
    (h3 : line - 1 < s.currentLines.length) :
    (i2cDisplayTextO (i2cDisplayTextO s (some text) line).1 (some text) line).2 = [] ∧
    (i2cDisplayTextO s (some text) line).2.length ≤ 1 ∧
    (s.currentLines[line - 1]? ≠ some (i2cClean (some text)) →
      ((i2cDisplayTextO s (some text) line).2 ++
        (i2cDisplayTextO (i2cDisplayTextO s (some text) line).1 (some text) line).2).length = 1) := by
  have hr : 1 ≤ line ∧ line ≤ i2cHeight := ⟨h1, h2⟩
  by_cases hc : s.currentLines[line - 1]? = some (i2cClean (some text))
  · have hfst : i2cDisplayTextO s (some text) line = (s, []) := by
      unfold i2cDisplayTextO
      rw [if_neg (by exact fun hx => hx hr), if_pos ⟨h3, hc⟩]
    refine ⟨?_, ?_, ?_⟩
    · rw [hfst]; rw [hfst]
    · rw [hfst]; exact Nat.zero_le 1
    · intro hne; exact absurd hc hne
  · have hfst : i2cDisplayTextO s (some text) line =
        (⟨s.currentLines.set (line - 1) (i2cClean (some text))⟩,
          [.write (i2cClean (some text)) line]) := by
      unfold i2cDisplayTextO
      rw [if_neg (by exact fun hx => hx hr),
        if_neg (by exact fun hx => hc hx.2), if_pos h3]
    have hsnd : (i2cDisplayTextO
        (⟨s.currentLines.set (line - 1) (i2cClean (some text))⟩ : I2CState)
        (some text) line).2 = [] := by
      unfold i2cDisplayTextO
      rw [if_neg (by exact fun hx => hx hr)]
      rw [if_pos ?hp]
      case hp =>
        constructor
        · simpa [List.length_set] using h3
        · exact List.getElem?_set_eq_of_lt _ h3
    refine ⟨?_, ?_, ?_⟩
    · rw [hfst]; exact hsnd
    · rw [hfst]; simp
    · intro _
      rw [hfst]
      simpa using hsnd

theorem i2c_displayText_idempotent_witness :
    (1 ≤ 1 ∧ 1 ≤ i2cHeight ∧ 1 - 1 < i2cInit.currentLines.length) ∧
    (i2cDisplayTextO (i2cDisplayTextO i2cInit (some "hi") 1).1 (some "hi") 1).2 = [] ∧
    ((i2cDisplayTextO i2cInit (some "hi") 1).2 ++
      (i2cDisplayTextO (i2cDisplayTextO i2cInit (some "hi") 1).1 (some "hi") 1).2).length = 1 := by
  have hm := i2c_displayText_idempotent i2cInit "hi" 1 (by decide) (by decide)
    (by decide)
  exact ⟨⟨by decide, by decide, by decide⟩, hm.1, hm.2.2 (by decide)⟩

/-- C7: every string the I2C driver actually writes to the hardware (for any
input text, including `None`, and any line) has exactly `width = 16`
characters, each of them printable ASCII (codes 32–126): the driver sanitizes
(null to empty, control and non-ASCII characters to spaces), truncates to the
width and right-pads with spaces. -/
theorem i2c_write_sanitized (s : I2CState) (text : Option String) (line : Nat)
    (t : String) (l : Nat)
    (h : DriverOp.write t l ∈ (i2cDisplayTextO s text line).2) :
    pyLen t = i2cWidth ∧ ∀ c ∈ t.data, 32 ≤ c.toNat ∧ c.toNat ≤ 126 := by
  have ht : t = i2cClean text := by
    unfold i2cDisplayTextO at h
    by_cases hr : 1 ≤ line ∧ line ≤ i2cHeight
    · rw [if_neg (by exact fun hx => hx hr)] at h
      by_cases hc : line - 1 < s.currentLines.length ∧
          s.currentLines[line - 1]? = some (i2cClean text)
      · rw [if_pos hc] at h
        exact absurd h (List.not_mem_nil _)
      · rw [if_neg hc] at h
        simp only [List.mem_singleton, DriverOp.write.injEq] at h
        exact h.1
    · rw [if_pos hr] at h
      exact absurd h (List.not_mem_nil _)
  subst ht
  exact ⟨pyLen_i2cClean text, fun c hc => i2cClean_mem_range text c hc⟩

theorem i2c_write_sanitized_witness :
    DriverOp.write "hi              " 1 ∈ (i2cDisplayTextO i2cInit (some "hi\n") 1).2 ∧
    pyLen "hi              " = i2cWidth := by
  have hm : DriverOp.write "hi              " 1 ∈
      (i2cDisplayTextO i2cInit (some "hi\n") 1).2 := by decide
  exact ⟨hm, (i2c_write_sanitized i2cInit (some "hi\n") 1 _ _ hm).1⟩

/-- C3: every timed screen (Volume, Channel, non-persistent Error, Goodbye)
measures its duration from the instant of the first render after
installation, not from construction: a render with `start_time = None`
records the current instant (and continues iff `0 < duration`), a render with
recorded instant `T` continues exactly while `now - T < duration` and leaves
`T` unchanged, and `show_screen` installs the screen with its `start_time`
reset to `None`. -/
theorem timed_screen_expiry {δ : Type} (dm : DriverModel δ) (d : δ) (ctx : Ctx)
    (env : TimeEnv) (dur T : ℚ) (msg : String) (m : ManagerState δ)
    (s : Screen) (cf : Bool) (t : ℚ) :
    ((renderScreen dm (.volume dur none) d ctx env).screen = .volume dur (some env.now)) ∧
    ((renderScreen dm (.channel dur none) d ctx env).screen = .channel dur (some env.now)) ∧
    ((renderScreen dm (.error msg dur false none) d ctx env).screen =
      .error msg dur false (some env.now)) ∧
    ((renderScreen dm (.goodbye dur none) d ctx env).screen = .goodbye dur (some env.now)) ∧
    ((renderScreen dm (.volume dur none) d ctx env).cont = true ↔ (0 : ℚ) < dur) ∧
    ((renderScreen dm (.channel dur none) d ctx env).cont = true ↔ (0 : ℚ) < dur) ∧
    ((renderScreen dm (.error msg dur false none) d ctx env).cont = true ↔ (0 : ℚ) < dur) ∧
    ((renderScreen dm (.goodbye dur none) d ctx env).cont = true ↔ (0 : ℚ) < dur) ∧
    ((renderScreen dm (.volume dur (some T)) d ctx env).cont = true ↔ env.now - T < dur) ∧
    ((renderScreen dm (.channel dur (some T)) d ctx env).cont = true ↔ env.now - T < dur) ∧
    ((renderScreen dm (.error msg dur false (some T)) d ctx env).cont = true ↔
      env.now - T < dur) ∧
    ((renderScreen dm (.goodbye dur (some T)) d ctx env).cont = true ↔ env.now - T < dur) ∧
    ((renderScreen dm (.volume dur (some T)) d ctx env).screen = .volume dur (some T)) ∧
    ((renderScreen dm (.channel dur (some T)) d ctx env).screen = .channel dur (some T)) ∧
    ((renderScreen dm (.error msg dur false (some T)) d ctx env).screen =
      .error msg dur false (some T)) ∧
    ((renderScreen dm (.goodbye dur (some T)) d ctx env).screen = .goodbye dur (some T)) ∧
    ((showScreen dm m s cf t).1.currentScreen = some (resetStartTime s)) ∧
    resetStartTime (.volume dur (some T)) = .volume dur none ∧
    resetStartTime (.channel dur (some T)) = .channel dur none ∧
    resetStartTime (.error msg dur false (some T)) = .error msg dur false none ∧
    resetStartTime (.goodbye dur (some T)) = .goodbye dur none := by
  refine ⟨rfl, rfl, rfl, rfl, ?_, ?_, ?_, ?_, ?_, ?_, ?_, ?_,
    rfl, rfl, rfl, rfl, ?_, rfl, rfl, rfl, rfl⟩
  · simp [renderScreen, sub_self]
  · simp [renderScreen, sub_self]
  · simp [renderScreen, sub_self]
  · simp [renderScreen, sub_self]
  · simp [renderScreen]
  · simp [renderScreen]
  · simp [renderScreen]
  · simp [renderScreen]
  · cases cf <;> rfl

/-- C8: `update_display` never propagates a render failure: the `except:`
branch of its body — the `.error` case of the total function
`updateDisplayOutcome` — performs the recovery (best-effort driver clear,
bookkeeping keys `last_line1`/`last_line2` reset to the empty string,
`force_update` set) while leaving the active-screen slot untouched, and
returns normally. -/
theorem update_display_swallows_render_errors {δ : Type} (dm : DriverModel δ)
    (m : ManagerState δ) (e : String) :
    (updateDisplayOutcome dm m (.error e)).1.driver = (dm.clear m.driver).1 ∧
    (updateDisplayOutcome dm m (.error e)).2 = (dm.clear m.driver).2 ∧
    (updateDisplayOutcome dm m (.error e)).1.currentScreen = m.currentScreen ∧
    (updateDisplayOutcome dm m (.error e)).1.defaultScreen = m.defaultScreen ∧
    ctxGet (updateDisplayOutcome dm m (.error e)).1.ctx "force_update" =
      some (.bool true) ∧
    ctxGet (updateDisplayOutcome dm m (.error e)).1.ctx "last_line1" =
      some (.str "") ∧
    ctxGet (updateDisplayOutcome dm m (.error e)).1.ctx "last_line2" =
      some (.str "") := by
  have hctx : (updateDisplayOutcome dm m (.error e)).1.ctx =
      ctxSet (ctxSet (ctxSet m.ctx "last_line1" (.str "")) "last_line2" (.str ""))
        "force_update" (.bool true) := rfl
  refine ⟨rfl, rfl, rfl, rfl, ?_, ?_, ?_⟩
  · rw [hctx]
    exact ctxGet_ctxSet_self _ _ _
  · rw [hctx, ctxGet_ctxSet_ne _ _ _ _ (by decide),
      ctxGet_ctxSet_ne _ _ _ _ (by decide)]
    exact ctxGet_ctxSet_self _ _ _
  · rw [hctx, ctxGet_ctxSet_ne _ _ _ _ (by decide)]
    exact ctxGet_ctxSet_self _ _ _

/-- showScreen's resulting context, spelled out. -/
theorem showScreen_ctx {δ : Type} (dm : DriverModel δ) (m : ManagerState δ)
    (s : Screen) (cf : Bool) (t : ℚ) :
    (showScreen dm m s cf t).1.ctx =
      ctxSet (ctxSet (if cf then ctxSet m.ctx "force_update" (.bool true) else m.ctx)
        "last_line1" (.str "")) "last_line2" (.str "") := by
  cases cf <;> rfl

/-- C9: the manager consumes the `force_update` flag before invoking `render`
(the context handed to the screen always carries a falsy flag, whatever
`show_screen` or `clear_display` set), so the post-swap full redraw rests
solely on the `last_line1`/`last_line2` bookkeeping being reset to the empty
string — which can never equal a rendered line, since the default screen's
line contents are always exactly `width` characters. -/
theorem force_update_consumed_before_render :
    (∀ (δ : Type) (m : ManagerState δ),
      pyTruthy (ctxGetD (updateDisplayCtxAtRender m) "force_update" (.bool false)) =
        false) ∧
    (∀ (w : Nat) (song off : MarqueeState) (ctx : Ctx) (env : TimeEnv),
      pyLen (radioLineContents w song off ctx env).line1 = w ∧
      pyLen (radioLineContents w song off ctx env).line2 = w ∧
      (0 < w →
        (radioLineContents w song off ctx env).line1 ≠ "" ∧
        (radioLineContents w song off ctx env).line2 ≠ "")) ∧
    (∀ (δ : Type) (dm : DriverModel δ) (m : ManagerState δ) (s : Screen)
        (cf : Bool) (t : ℚ),
      ctxGet (showScreen dm m s cf t).1.ctx "last_line1" = some (.str "") ∧
      ctxGet (showScreen dm m s cf t).1.ctx "last_line2" = some (.str "")) := by
  refine ⟨?_, ?_, ?_⟩
  · intro δ m
    unfold updateDisplayCtxAtRender
    cases hf : pyTruthy (ctxGetD m.ctx "force_update" (.bool false)) with
    | false => rw [if_neg (by exact Bool.false_ne_true)]; exact hf
    | true =>
      rw [if_pos rfl]
      rw [ctxGetD, ctxGet_ctxSet_self]
      rfl
  · intro w song off ctx env
    have h1 : pyLen (radioLineContents w song off ctx env).line1 = w := by
      unfold radioLineContents
      by_cases hp : pyTruthy (ctxGetD ctx "is_playing" (.bool false)) = true
      · rw [if_pos hp]; exact pyLen_pyTake_pyLjust _ _
      · rw [if_neg hp]; exact pyLen_pyTake_pyLjust _ _
    have h2 : pyLen (radioLineContents w song off ctx env).line2 = w := by
      unfold radioLineContents
      by_cases hp : pyTruthy (ctxGetD ctx "is_playing" (.bool false)) = true
      · rw [if_pos hp]; exact pyLen_pyTake_pyLjust _ _
      · rw [if_neg hp]; exact pyLen_pyTake_pyLjust _ _
    refine ⟨h1, h2, fun hw => ⟨?_, ?_⟩⟩
    · exact ne_empty_of_pyLen_pos _ (by rw [h1]; exact hw)
    · exact ne_empty_of_pyLen_pos _ (by rw [h2]; exact hw)
  · intro δ dm m s cf t
    rw [showScreen_ctx]
    constructor
    · rw [ctxGet_ctxSet_ne _ _ _ _ (by decide)]
      exact ctxGet_ctxSet_self _ _ _
    · exact ctxGet_ctxSet_self _ _ _

theorem force_update_consumed_before_render_witness :
    pyTruthy (ctxGetD (updateDisplayCtxAtRender c1m1) "force_update" (.bool false)) =
      false ∧
    (radioLineContents 16 (mkMarquee 0) (mkMarquee 0) [] (c1env 0)).line1 ≠ "" := by
  refine ⟨force_update_consumed_before_render.1 MockState c1m1, ?_⟩
  exact ((force_update_consumed_before_render.2.1 16 (mkMarquee 0) (mkMarquee 0) []
    (c1env 0)).2.2 (by decide)).1

/-- C10: after `update_context(patch)` every patched key maps to the patch's
value (string values whitespace-stripped first) and every other key is
unchanged — and because the render context is the same flat dictionary that
stores the manager's bookkeeping, a patch naming `last_line1` (or
`last_line2`, `force_update`) silently overwrites the change-suppression
bookkeeping, as the concrete conjunct shows on the freshly initialised
manager. -/
theorem update_context_frame (ctx : Ctx) (patch : List (String × PyVal))
    (k : String) :
    (List.lookup k patch.reverse = none →
      ctxGet (updateContext ctx patch) k = ctxGet ctx k) ∧
    (∀ v, List.lookup k patch.reverse = some v →
      ctxGet (updateContext ctx patch) k = some (stripVal v)) ∧
    ctxGet (managerUpdateContext (mkManager (mockInit 2) 0)
        [("last_line1", .str " x ")]).ctx "last_line1" = some (.str "x") := by
  refine ⟨?_, ?_, ?_⟩
  · intro hn
    rw [ctxGet_updateContext, hn]
  · intro v hv
    rw [ctxGet_updateContext, hv]
  · with_unfolding_all decide

theorem update_context_frame_witness :
    ctxGet (updateContext [("a", PyVal.str "old")] [("b", PyVal.str " new ")]) "a" =
      some (.str "old") ∧
    ctxGet (updateContext [("a", PyVal.str "old")] [("b", PyVal.str " new ")]) "b" =
      some (.str "new") := by
  refine ⟨(update_context_frame _ _ _).1 (by decide), ?_⟩
  have h2 := (update_context_frame [("a", PyVal.str "old")]
    [("b", PyVal.str " new ")] "b").2.1 (PyVal.str " new ") (by decide)
  rw [h2]
  decide

/-- While a temporary screen is installed, `update_display` renders it (and
only it), leaves the default screen untouched, and reverts to the
no-temp-screen state exactly when the render reports expiry. -/
theorem updateDisplay_temp_screen {δ : Type} (dm : DriverModel δ)
    (m : ManagerState δ) (env : TimeEnv) (s : Screen)
    (ht : m.transitionInProgress = false) (hs : m.currentScreen = some s) :
    (updateDisplay dm m env).2 =
      (renderScreen dm s m.driver (updateDisplayCtxAtRender m) env).ops ++
        (if (renderScreen dm s m.driver (updateDisplayCtxAtRender m) env).cont then []
         else (dm.clear (renderScreen dm s m.driver (updateDisplayCtxAtRender m) env).driver).2) ∧
    (updateDisplay dm m env).1.defaultScreen = m.defaultScreen ∧
    ((renderScreen dm s m.driver (updateDisplayCtxAtRender m) env).cont = false →
      (updateDisplay dm m env).1.currentScreen = none) ∧
    ((renderScreen dm s m.driver (updateDisplayCtxAtRender m) env).cont = true →
      (updateDisplay dm m env).1.currentScreen =
        some (renderScreen dm s m.driver (updateDisplayCtxAtRender m) env).screen) := by
  have hrender : screenToRender m = s := by rw [screenToRender, hs]; rfl
  have hsome : m.currentScreen.isSome = true := by rw [hs]; rfl
  unfold updateDisplay
  rw [if_neg (by rw [ht]; exact Bool.false_ne_true), hrender]
  simp only [updateDisplayOutcome]
  cases hcont : (renderScreen dm s m.driver (updateDisplayCtxAtRender m) env).cont with
  | false =>
    rw [if_pos ⟨hsome, rfl⟩]
    exact ⟨rfl, rfl, fun _ => rfl, fun hx => absurd hx (by decide)⟩
  | true =>
    rw [if_neg (fun hx => absurd hx.2 (by decide))]
    exact ⟨by simp, by simp [hsome], fun hx => absurd hx (by decide),
      fun _ => by simp [hsome]⟩

/-- When no temporary screen is installed, `update_display` renders the
default screen. -/
theorem updateDisplay_default_when_none {δ : Type} (dm : DriverModel δ)
    (m : ManagerState δ) (env : TimeEnv)
    (ht : m.transitionInProgress = false) (hn : m.currentScreen = none) :
    (updateDisplay dm m env).2 =
      (renderScreen dm m.defaultScreen m.driver (updateDisplayCtxAtRender m) env).ops := by
  have hrender : screenToRender m = m.defaultScreen := by
    rw [screenToRender, hn]; rfl
  have hsome : m.currentScreen.isSome = false := by rw [hn]; rfl
  unfold updateDisplay
  rw [if_neg (by rw [ht]; exact Bool.false_ne_true), hrender]
  simp only [updateDisplayOutcome]
  rw [if_neg (fun hx => by rw [hsome] at hx; exact absurd hx.1 (by decide))]

/-- C1 counterexample: in end-to-end scenario A (ChannelScreen of duration
2.0 first rendered at t = 0, `updateDisplay()` at 0, 0.5, 1.0, then 2.1), the
fourth call does not show the default screen: the screen picked for that
frame is still the installed Channel screen (not the default screen), its
writes are the Channel content, and the frame ends with the expiry clear; the
default screen is first rendered by the fifth call. -/
theorem c1_counterexample :
    screenToRender c1step3.1 ≠ c1step3.1.defaultScreen ∧
    screenToRender c1step3.1 = Screen.channel 2 (some 0) ∧
    c1step4.2 = [.write "    Channel     " 1, .write "    Jazz FM     " 2, .clear] ∧
    c1step4.1.currentScreen = none ∧
    screenToRender c1step4.1 = c1step4.1.defaultScreen ∧
    c1step5.2 = [.write "    12:00:00    " 1, .write "Radio Off  -  Ra" 2] := by
  with_unfolding_all decide

/-- C1 amended: while a temporary screen is installed and its render reports
continue, `updateDisplay()` renders only that screen (its hardware writes are
exactly the temporary screen's render ops and the default screen is
untouched); in the call whose render reports expiry the driver additionally
receives a `clear()` and the manager reverts to the no-temp-screen state, and
it is the next call after that one that renders the default screen.
Concretely in scenario A: the third call (t = 1.0) still shows
Channel/"Jazz FM"; the fourth call (t = 2.1) renders the Channel screen once
more, clears, and reverts; the fifth call renders the default screen. -/
theorem temp_screen_priority :
    (∀ (δ : Type) (dm : DriverModel δ) (m : ManagerState δ) (env : TimeEnv)
        (s : Screen), m.transitionInProgress = false → m.currentScreen = some s →
      (updateDisplay dm m env).2 =
        (renderScreen dm s m.driver (updateDisplayCtxAtRender m) env).ops ++
          (if (renderScreen dm s m.driver (updateDisplayCtxAtRender m) env).cont then []
           else (dm.clear (renderScreen dm s m.driver (updateDisplayCtxAtRender m) env).driver).2) ∧
      (updateDisplay dm m env).1.defaultScreen = m.defaultScreen ∧
      ((renderScreen dm s m.driver (updateDisplayCtxAtRender m) env).cont = false →
        (updateDisplay dm m env).1.currentScreen = none)) ∧
    (∀ (δ : Type) (dm : DriverModel δ) (m : ManagerState δ) (env : TimeEnv),
      m.transitionInProgress = false → m.currentScreen = none →
      (updateDisplay dm m env).2 =
        (renderScreen dm m.defaultScreen m.driver (updateDisplayCtxAtRender m) env).ops) ∧
    c1step3.2 = [.write "    Channel     " 1, .write "    Jazz FM     " 2] ∧
    c1step3.1.currentScreen.isSome = true ∧
    c1step4.2 = [.write "    Channel     " 1, .write "    Jazz FM     " 2, .clear] ∧
    c1step4.1.currentScreen = none ∧
    c1step5.2 = [.write "    12:00:00    " 1, .write "Radio Off  -  Ra" 2] := by
  refine ⟨?_, ?_, ?_, ?_, ?_, ?_, ?_⟩
  · intro δ dm m env s ht hs
    have h := updateDisplay_temp_screen dm m env s ht hs
    exact ⟨h.1, h.2.1, h.2.2.1⟩
  · intro δ dm m env ht hn
    exact updateDisplay_default_when_none dm m env ht hn
  · with_unfolding_all decide
  · with_unfolding_all decide
  · with_unfolding_all decide
  · with_unfolding_all decide
  · with_unfolding_all decide

theorem temp_screen_priority_witness :
    (updateDisplay mockDM16 c1m2 (c1env 0)).1.defaultScreen = c1m2.defaultScreen ∧
    (updateDisplay mockDM16 c1step4.1 (c1env (26/10))).2 =
      (renderScreen mockDM16 c1step4.1.defaultScreen c1step4.1.driver
        (updateDisplayCtxAtRender c1step4.1) (c1env (26/10))).ops := by
  constructor
  · exact (temp_screen_priority.1 MockState mockDM16 c1m2 (c1env 0)
      (Screen.channel 2 none) (by with_unfolding_all decide)
      (by with_unfolding_all decide)).2.1
  · exact temp_screen_priority.2.1 MockState mockDM16 c1step4.1 (c1env (26/10))
      (by with_unfolding_all decide) (by with_unfolding_all decide)

end PlexRadio
